import Mathlib

/-!
Verification development for the docker-janitor image retention engine
(`src/config.py`, `src/daemon.py`, `src/tui.py`).

The Python sources are shallowly embedded below:
* machine-level collaborators (the Docker runtime client, the filesystem,
  `datetime.fromisoformat`) are abstracted as explicit parameters
  (`Except`-valued listings, a `String → Option Int` timestamp parser,
  a `String → Bool` per-image removal oracle);
* timestamps are modelled as `Int` microseconds since the epoch, so
  `timedelta(days = d)` is `d * musPerDay`;
* the stateful deletion loops are modelled as functions producing traces
  of events, which makes the ordering claims (backup before delete,
  per-item failure isolation) statable.
-/

namespace DockerJanitor

/-- One container image, as the fields of the docker-py `Image` object that
`daemon.py` reads: `image.id`, `image.short_id`, `image.tags`,
`image.attrs['Created']`, `image.attrs['Size']`,
`image.attrs['Config']['Labels']`. -/
structure Image where
  id : String
  short_id : String
  tags : List String
  created : String
  size : Nat
  labels : List (String × String)
deriving DecidableEq, Repr

/-- One container, as `daemon.get_unused_images` reads it: `container.image.id`
and, when the attribute exists, `container.image.parent_id`. -/
structure Container where
  image_id : String
  parent_id : Option String
deriving DecidableEq, Repr

/-! ## `fnmatch` — Python's glob matcher

`daemon.should_exclude_image` calls `fnmatch.fnmatch(name, pattern)`.
On POSIX `os.path.normcase` is the identity, so this is case-sensitive
matching of `name` against the glob `pattern`: `*` matches any sequence,
`?` any single character, `[seq]` a character class (with `!` negation,
`a-b` ranges, a leading `]` taken literally, and an unterminated `[`
taken literally). -/

/-- Does a character-class body (the text between `[` and `]`, with any
leading `!` already stripped) match character `c`?  `a-b` is a range when
the `-` is neither first nor last in the remaining body. -/
def matchSet : List Char → Char → Bool
  | [], _ => false
  | [a], c => a == c
  | [a, b], c => a == c || b == c
  | a :: b :: d :: rest, c =>
    if b == '-' then (decide (a ≤ c) && decide (c ≤ d)) || matchSet rest c
    else a == c || matchSet (b :: d :: rest) c

/-- Scan for the `]` that closes a character class; returns the class body
and the remainder of the pattern, or `none` when the class is unterminated. -/
def findClose : List Char → Option (List Char × List Char)
  | [] => none
  | ']' :: rest => some ([], rest)
  | c :: rest => (findClose rest).map (fun p => (c :: p.1, p.2))

/-- Split the text following a `[` into (negated?, class body, rest of
pattern), following `fnmatch.translate`: an initial `!` negates, and a `]`
immediately after that belongs to the class body. -/
def splitClass (l : List Char) : Option (Bool × List Char × List Char) :=
  match l with
  | '!' :: ']' :: rest => (findClose rest).map (fun p => (true, ']' :: p.1, p.2))
  | '!' :: rest => (findClose rest).map (fun p => (true, p.1, p.2))
  | ']' :: rest => (findClose rest).map (fun p => (false, ']' :: p.1, p.2))
  | _ => (findClose l).map (fun p => (false, p.1, p.2))

/-- Core glob matcher, structurally recursive on a fuel bound so that it
reduces inside the kernel.  Every recursive call strictly decreases
`p.length + s.length`, so `globMatch` below always supplies enough fuel and
the `0`-fuel branch is unreachable. -/
def globMatchF : Nat → List Char → List Char → Bool
  | 0, _, _ => false
  | _ + 1, [], s => s.isEmpty
  | fuel + 1, '*' :: ps, s =>
    globMatchF fuel ps s ||
      (match s with
       | [] => false
       | _ :: t => globMatchF fuel ('*' :: ps) t)
  | fuel + 1, '?' :: ps, s =>
    (match s with
     | [] => false
     | _ :: t => globMatchF fuel ps t)
  | fuel + 1, '[' :: ps, s =>
    (match splitClass ps with
     | none =>
       (match s with
        | [] => false
        | c :: t => c == '[' && globMatchF fuel ps t)
     | some (neg, cls, rest) =>
       (match s with
        | [] => false
        | c :: t =>
          (if neg then !(matchSet cls c) else matchSet cls c) && globMatchF fuel rest t))
  | fuel + 1, p :: ps, s =>
    (match s with
     | [] => false
     | c :: t => p == c && globMatchF fuel ps t)

/-- Does glob pattern `p` match the whole string `s`? -/
def globMatch (p s : List Char) : Bool :=
  globMatchF (p.length + s.length + 1) p s

/-- `fnmatch.fnmatch(name, pattern)` (POSIX: case-sensitive). -/
def fnmatch (name pattern : String) : Bool :=
  globMatch pattern.toList name.toList

/-- Python's substring test `needle in hay` (for `'latest' in tag` and
`prod_pattern in tag.lower()`). -/
def subListOf (needle : List Char) : List Char → Bool
  | [] => needle.isEmpty
  | c :: t => List.isPrefixOf needle (c :: t) || subListOf needle t

/-- `needle in hay` on strings. -/
def strContains (hay needle : String) : Bool :=
  subListOf needle.toList hay.toList

/-- Python `s.replace(old, new)` on character lists: replace every
non-overlapping occurrence, scanning left to right.  (Only called with a
non-empty `old`.)  Structurally recursive on a fuel bound, which
`replaceL` always supplies in full: every recursive call strictly shrinks
the scanned list, so the `0`-fuel branch is unreachable. -/
def replaceF (old new : List Char) : Nat → List Char → List Char
  | 0, s => s
  | _ + 1, [] => []
  | fuel + 1, c :: t =>
    if old.isPrefixOf (c :: t) && !old.isEmpty then
      new ++ replaceF old new fuel (t.drop (old.length - 1))
    else
      c :: replaceF old new fuel t

/-- Python `s.replace(old, new)` on character lists. -/
def replaceL (old new s : List Char) : List Char :=
  replaceF old new s.length s

/-- Python `s.split(sep)` (non-empty `sep`) on character lists: split at
every non-overlapping occurrence, scanning left to right.  Fuelled exactly
like `replaceF`. -/
def splitOnF (sep : List Char) : Nat → List Char → List (List Char)
  | 0, s => [s]
  | _ + 1, [] => [[]]
  | fuel + 1, c :: t =>
    if sep.isPrefixOf (c :: t) && !sep.isEmpty then
      [] :: splitOnF sep fuel (t.drop (sep.length - 1))
    else
      match splitOnF sep fuel t with
      | [] => [[c]]
      | chunk :: rest => (c :: chunk) :: rest

/-- Python `s.split(sep)` (non-empty `sep`) on character lists. -/
def splitOnL (sep s : List Char) : List (List Char) :=
  splitOnF sep s.length s

/-- Python `s.lower()` (ASCII-relevant part of `str.lower`). -/
def strToLower (s : String) : String :=
  ⟨s.toList.map Char.toLower⟩

/-! ## `daemon.should_exclude_image` -/

/-- The built-in production-like substrings of `should_exclude_image`. -/
def production_patterns : List String := ["prod", "production", "stable", "release"]

/-- `daemon.should_exclude_image(image, exclusion_patterns)`: an empty pattern
list short-circuits to `False`; otherwise the image is excluded when a pattern
glob-matches a tag, or a pattern glob-matches the short ID, or a tag contains
`latest`, or a lower-cased tag contains a production-like substring. -/
def should_exclude_image (image : Image) (exclusion_patterns : List String) : Bool :=
  if exclusion_patterns.isEmpty then false
  else
    let tags := image.tags
    if tags.any (fun tag => exclusion_patterns.any (fun pattern => fnmatch tag pattern)) then
      true
    else if exclusion_patterns.any (fun pattern => fnmatch image.short_id pattern) then
      true
    else if tags.any (fun tag => strContains tag "latest") then
      true
    else if tags.any (fun tag => production_patterns.any
        (fun prod_pattern => strContains (strToLower tag) prod_pattern)) then
      true
    else false

/-- The spec's own wording of exclusion ("any exclusion pattern matches any tag
(case-sensitive glob) or the short ID"), for refinement comparison with the
source's `should_exclude_image`. -/
def excludedBySpecPattern (image : Image) (exclusion_patterns : List String) : Bool :=
  exclusion_patterns.any (fun pattern =>
    image.tags.any (fun tag => fnmatch tag pattern) || fnmatch image.short_id pattern)

/-! ## Timestamp handling (`daemon.get_unused_images` lines 177–202)

The string preprocessing applied to `image.attrs['Created']` before
`datetime.fromisoformat` is repository code and is embedded below;
`fromisoformat` itself is Python standard library and is abstracted as a
parameter `fromiso : String → Option Int` (`none` = `ValueError`), with
instants as `Int` microseconds since the epoch.  The `ValueError` raised by
unpacking `split('.')` into two names when the string has more than one `.`
is also part of the `try` block, hence `preprocessTimestamp` is `Option`-valued. -/

/-- The characters of `"+00:00"`. -/
def utcSuffix : List Char := ['+', '0', '0', ':', '0', '0']

/-- Python `s.count(sub)` (non-overlapping, left to right). -/
def countOcc (s sub : List Char) : Nat := (splitOnL sub s).length - 1

/-- The Created-string fixups of `get_unused_images`: `Z` → `+00:00`
(via `str.replace`, so every `Z`), collapse a doubled `+00:00`, and trim
fractional seconds to at most six digits.  `none` models the `ValueError`
raised when `split('.')` does not yield exactly two parts. -/
def preprocessTimestamp (s0 : String) : Option String :=
  let l0 := s0.toList
  let l1 :=
    if List.isSuffixOf ['Z'] l0 then replaceL ['Z'] utcSuffix l0
    else if subListOf utcSuffix l0 && countOcc l0 utcSuffix > 1 then
      replaceL (utcSuffix ++ utcSuffix) utcSuffix l0
    else l0
  if subListOf ['.'] l1 then
    match splitOnL ['.'] l1 with
    | [date_part, time_part] =>
      if subListOf ['+'] time_part then
        match splitOnL ['+'] time_part with
        | [] => none
        | time_microseconds :: tz_parts =>
          some ⟨date_part ++ ['.'] ++ time_microseconds.take 6 ++ ['+']
            ++ List.intercalate ['+'] tz_parts⟩
      else if subListOf ['Z'] time_part then
        some ⟨date_part ++ ['.'] ++ (replaceL ['Z'] [] time_part).take 6 ++ utcSuffix⟩
      else some ⟨l1⟩
    | _ => none
  else some ⟨l1⟩

/-- Microseconds in `timedelta(days = 1)`. -/
def musPerDay : Int := 86400000000

/-- Preprocess then parse a Created string; `none` is the caught
`ValueError` (the image is then skipped, i.e. kept). -/
def parseCreated (fromiso : String → Option Int) (s : String) : Option Int :=
  (preprocessTimestamp s).bind fromiso

/-! ## `daemon.get_unused_images` -/

/-- The `used_image_ids` set of `get_unused_images`: every container
contributes `container.image.id`, plus `parent_id` when the attribute is
present and truthy (a non-empty string). -/
def usedImageIds (containers : List Container) : List String :=
  containers.flatMap (fun container =>
    container.image_id ::
      (match container.parent_id with
       | some p => if p == "" then [] else [p]
       | none => []))

/-- The classification loop of `get_unused_images` over a successfully
listed snapshot: an image lands in `unused_images` exactly when it is not
referenced by a container, not excluded by `should_exclude_image`, its
Created string parses, and `created_time < threshold_date`. -/
def classifyImages (fromiso : String → Option Int) (now : Int)
    (all_images : List Image) (containers : List Container)
    (age_threshold_days : Int) (exclusion_patterns : List String) : List Image :=
  let used := usedImageIds containers
  let threshold_date := now - age_threshold_days * musPerDay
  all_images.filter (fun image =>
    !(used.contains image.id) &&
    !(should_exclude_image image exclusion_patterns) &&
    (match parseCreated fromiso image.created with
     | none => false
     | some created_time => decide (created_time < threshold_date)))

/-- `daemon.get_unused_images`: the runtime listing is a parameter;
a `docker.errors.DockerException` while listing is caught and the function
returns the empty list. -/
def get_unused_images (fromiso : String → Option Int) (now : Int)
    (listing : Except String (List Image × List Container))
    (age_threshold_days : Int) (exclusion_patterns : List String) : List Image :=
  match listing with
  | .error _ => []
  | .ok (all_images, containers) =>
    classifyImages fromiso now all_images containers age_threshold_days exclusion_patterns

/-! ## `daemon.backup_image_info` and `daemon.cleanup_images`

`cleanup_images` is modelled as the trace of externally visible actions of
one cycle: the backup write (with the records it serializes) and one
removal attempt per candidate.  Log lines and the backup envelope timestamp
are not modelled; whether `client.images.remove` succeeds is the oracle
`removeSucceeds` (an `APIError` is caught per item). -/

/-- One serialized record of `backup_image_info`:
`{id, short_id, tags, created, size, labels}`. -/
structure BackupRecord where
  id : String
  short_id : String
  tags : List String
  created : String
  size : Nat
  labels : List (String × String)
deriving DecidableEq, Repr

/-- The record `backup_image_info` serializes for one image. -/
def backupRecordOf (image : Image) : BackupRecord :=
  { id := image.id
    short_id := image.short_id
    tags := image.tags
    created := image.created
    size := image.size
    labels := image.labels }

/-- `daemon.backup_image_info`: the `images` list of the written backup file
(one record per image, in order). -/
def backup_image_info (images : List Image) : List BackupRecord :=
  images.map backupRecordOf

/-- Externally visible actions of one `cleanup_images` cycle. -/
inductive Event where
  | backupWrite (records : List BackupRecord)
  | removeOk (id : String)
  | removeFail (id : String)
deriving DecidableEq, Repr

/-- Is an event a removal attempt (successful or failed)? -/
def isRemoveEvent : Event → Bool
  | .backupWrite _ => false
  | .removeOk _ => true
  | .removeFail _ => true

/-- `daemon.cleanup_images`: ping failure aborts with no actions; an empty
candidate list or dry-run mode performs no actions; a live run writes the
backup (when enabled) and then attempts every removal, catching each
item's `APIError`. -/
def cleanup_images (fromiso : String → Option Int) (now : Int)
    (ping : Except String Unit)
    (listing : Except String (List Image × List Container))
    (age_threshold : Int) (exclusion_patterns : List String)
    (dry_run backup_enabled : Bool) (removeSucceeds : String → Bool) : List Event :=
  match ping with
  | .error _ => []
  | .ok _ =>
    let images_to_delete :=
      get_unused_images fromiso now listing age_threshold exclusion_patterns
    if images_to_delete.isEmpty then []
    else if dry_run then []
    else
      (if backup_enabled then
        [Event.backupWrite (backup_image_info images_to_delete)]
      else []) ++
      images_to_delete.flatMap (fun image =>
        if removeSucceeds image.id then [Event.removeOk image.id]
        else [Event.removeFail image.id])

/-! ## `tui.delete_selected_images`

The interactive deletion loop: for each selected id it calls
`client.images.get` (raising `ImageNotFound`, a subclass of `APIError`,
when the image no longer exists) and then `client.images.remove`; the
`except docker.errors.APIError` handler around the loop body executes
`break`, stopping the whole loop at the first failure.  `getImage` models
`client.images.get` (`none` = `ImageNotFound`) and `removeSucceeds` models
whether `client.images.remove` raises. -/

/-- Outcome of the interactive deletion loop: the aggregate counters the
status line reports, the ids whose loop body ran, and whether the loop was
stopped by the `break` in the `APIError` handler. -/
structure TuiResult where
  deleted_count : Nat
  deleted_size : Nat
  attempted : List String
  aborted : Bool
deriving DecidableEq, Repr

/-- `tui.delete_selected_images` over the selected ids, in iteration order. -/
def delete_selected_images (getImage : String → Option Image)
    (removeSucceeds : String → Bool) : List String → TuiResult
  | [] => ⟨0, 0, [], false⟩
  | image_id :: rest =>
    match getImage image_id with
    | none => ⟨0, 0, [image_id], true⟩
    | some img =>
      if removeSucceeds image_id then
        let r := delete_selected_images getImage removeSucceeds rest
        ⟨r.deleted_count + 1, r.deleted_size + img.size, image_id :: r.attempted, r.aborted⟩
      else ⟨0, 0, [image_id], true⟩

/-! ## `config.py`

The JSON file contents are modelled as an association list; `none` stands
for a missing (or unreadable/corrupted) file, which `load_config` replaces
with the defaults.  `load_config` on an existing file fills in missing keys
from `DEFAULT_CONFIG` and force-overwrites `image_age_threshold_days` and
`log_level` with their defaults ("Force update these settings for
debugging"). -/

/-- A JSON-representable configuration value. -/
inductive CVal where
  | int (n : Int)
  | bool (b : Bool)
  | str (s : String)
  | strList (l : List String)
deriving DecidableEq, Repr

/-- The configuration dictionary. -/
abbrev Config := List (String × CVal)

/-- Python dict lookup `config.get(key)`. -/
def lookupConfig (c : Config) (k : String) : Option CVal :=
  match c with
  | [] => none
  | (k', v) :: rest => if k' == k then some v else lookupConfig rest k

/-- Python dict assignment `config[key] = value` (replace, else append). -/
def setConfig (c : Config) (k : String) (v : CVal) : Config :=
  match c with
  | [] => [(k, v)]
  | (k', v') :: rest => if k' == k then (k, v) :: rest else (k', v') :: setConfig rest k v

/-- `config.DEFAULT_CONFIG`. -/
def DEFAULT_CONFIG : Config :=
  [("daemon_sleep_interval_seconds", .int 86400),
   ("image_age_threshold_days", .int 3),
   ("dry_run_mode", .bool false),
   ("excluded_image_patterns", .strList []),
   ("log_level", .str "INFO"),
   ("log_file", .str "/var/log/docker-janitor.log"),
   ("backup_enabled", .bool true),
   ("backup_file", .str "/var/lib/docker-janitor/backup.json")]

/-- The keys `load_config` force-resets on every load. -/
def forcedKeys : List String := ["image_age_threshold_days", "log_level"]

/-- One iteration of `load_config`'s loop over `DEFAULT_CONFIG.items()`:
fill the key in when absent, then force-overwrite it when it is one of the
debug-forced keys. -/
def mergeStep (acc : Config) (kv : String × CVal) : Config :=
  let acc1 := if (lookupConfig acc kv.1).isNone then setConfig acc kv.1 kv.2 else acc
  if forcedKeys.contains kv.1 then setConfig acc1 kv.1 kv.2 else acc1

/-- `config.load_config`: defaults when the file is missing or unreadable,
otherwise the merge loop over the file's contents. -/
def load_config (file : Option Config) : Config :=
  match file with
  | none => DEFAULT_CONFIG
  | some c => DEFAULT_CONFIG.foldl mergeStep c

/-- `config.set_config_value`: load, assign, save — the result is the new
file contents. -/
def set_config_value (file : Option Config) (key : String) (value : CVal) : Config :=
  setConfig (load_config file) key value

/-! ## Concrete fixtures used by counterexamples and witnesses -/

/-- A timestamp parser that succeeds with the epoch instant on every string. -/
def tsZero : String → Option Int := fun _ => some 0

/-- A timestamp parser that fails on every string (every Created string is
unparsable). -/
def tsNone : String → Option Int := fun _ => none

/-- An untagged image with a parsable Created string. -/
def imgPlain : Image :=
  { id := "sha256:bbb", short_id := "sha256:bbb0", tags := [], created := "c",
    size := 7, labels := [] }

/-- An image whose only tag contains the word `latest`. -/
def imgLatest : Image :=
  { id := "sha256:aaa", short_id := "sha256:aaa0", tags := ["myapp:latest"],
    created := "c", size := 5, labels := [] }

/-- A removal oracle that always succeeds. -/
def rmOk : String → Bool := fun _ => true

/-- A removal oracle that fails exactly on image id `b`. -/
def rmFailB : String → Bool := fun image_id => !(image_id == "b")

/-- A runtime where every image id resolves to a 10-byte image. -/
def getImgW : String → Option Image :=
  fun image_id =>
    some { id := image_id, short_id := image_id, tags := [], created := "c",
           size := 10, labels := [] }

/-- A runtime where image id `gone` no longer exists. -/
def getImgGone : String → Option Image :=
  fun image_id => if image_id == "gone" then none else getImgW image_id

/-! ## Helper lemmas -/

theorem list_any_or {α : Type} (l : List α) (f g : α → Bool) :
    (l.any fun x => f x || g x) = (l.any f || l.any g) := by
  induction l with
  | nil => rfl
  | cons a t ih =>
    simp [List.any_cons, ih, Bool.or_assoc, Bool.or_comm, Bool.or_left_comm]

theorem list_any_swap {α β : Type} (l : List α) (m : List β) (f : α → β → Bool) :
    (l.any fun a => m.any fun b => f a b) = (m.any fun b => l.any fun a => f a b) := by
  induction l with
  | nil => simp
  | cons a t ih => simp [List.any_cons, ih, list_any_or]

theorem mem_of_mem_classifyImages {fromiso : String → Option Int} {now : Int}
    {all_images : List Image} {containers : List Container} {days : Int}
    {patterns : List String} {image : Image}
    (h : image ∈ classifyImages fromiso now all_images containers days patterns) :
    image ∈ all_images ∧
      ((usedImageIds containers).contains image.id = false ∧
        should_exclude_image image patterns = false ∧
        (match parseCreated fromiso image.created with
         | none => false
         | some created_time => decide (created_time < now - days * musPerDay)) = true) := by
  have h' := List.mem_filter.mp h
  refine ⟨h'.1, ?_⟩
  have hp := h'.2
  simp only [Bool.and_eq_true, Bool.not_eq_true'] at hp
  exact ⟨hp.1.1, hp.1.2, hp.2⟩

/-! ## Claim theorems -/

/-- C1: every image whose id is in the referenced set (the union over all
containers of the container's image id and its truthy parent id) is kept by
the classifier — it never appears in the deletion candidate list, for every
age threshold, every exclusion pattern list, every clock value and every
timestamp parser. -/
theorem in_use_image_never_candidate
    (fromiso : String → Option Int) (now : Int) (all_images : List Image)
    (containers : List Container) (days : Int) (patterns : List String)
    (image : Image) (h : image.id ∈ usedImageIds containers) :
    image ∉ get_unused_images fromiso now (Except.ok (all_images, containers))
      days patterns := by
  intro hmem
  have hmem' : image ∈ classifyImages fromiso now all_images containers days patterns :=
    hmem
  have hcontains : (usedImageIds containers).contains image.id = true := by
    simp [List.contains, List.elem_iff, h]
  have hfalse := (mem_of_mem_classifyImages hmem').2.1
  rw [hcontains] at hfalse
  exact Bool.noConfusion hfalse

/-- Witness for C1: `imgPlain` is referenced as the parent image of
`containerW`, so it is not a candidate even though it is unreferenced-looking,
old and unexcluded. -/
theorem in_use_image_never_candidate_witness :
    imgPlain ∉ get_unused_images tsZero musPerDay
      (Except.ok ([imgPlain], [⟨"sha256:ccc", some "sha256:bbb"⟩])) 0 [] :=
  in_use_image_never_candidate tsZero musPerDay [imgPlain]
    [⟨"sha256:ccc", some "sha256:bbb"⟩] 0 [] imgPlain (by decide)

/-- C4: an image whose Created string fails to parse (the caught
`ValueError`) is never in the deletion candidate list; the classifier skips
it rather than raising, for any image, referenced or not, excluded or not. -/
theorem unparsable_timestamp_never_candidate
    (fromiso : String → Option Int) (now : Int) (all_images : List Image)
    (containers : List Container) (days : Int) (patterns : List String)
    (image : Image) (h : parseCreated fromiso image.created = none) :
    image ∉ classifyImages fromiso now all_images containers days patterns := by
  intro hmem
  have h3 := (mem_of_mem_classifyImages hmem).2.2.2
  rw [h] at h3
  exact Bool.noConfusion h3

/-- Witness for C4: with a parser that rejects every Created string, the
otherwise-deletable `imgPlain` is kept. -/
theorem unparsable_timestamp_never_candidate_witness :
    imgPlain ∉ classifyImages tsNone musPerDay [imgPlain] [] 0 [] :=
  unparsable_timestamp_never_candidate tsNone musPerDay [imgPlain] [] 0 []
    imgPlain (by decide)

/-- C10: with an empty exclusion pattern list `should_exclude_image` returns
`false` for every image (even one tagged `myapp:latest`), while with a
non-empty pattern list that matches nothing, the built-in `latest` heuristic
does fire. -/
theorem empty_pattern_list_excludes_nothing :
    (∀ image : Image, should_exclude_image image [] = false) ∧
    should_exclude_image imgLatest ["zzz"] = true := by
  refine ⟨fun image => rfl, by decide⟩

/-- C2 counterexample: the single pattern `zzz` glob-matches neither the tag
`myapp:latest` nor the short ID of `imgLatest`, so by the claim the image is
not excluded — yet `should_exclude_image` excludes it, because a tag contains
the word `latest`. -/
theorem excluded_without_any_pattern_match :
    should_exclude_image imgLatest ["zzz"] = true ∧
    excludedBySpecPattern imgLatest ["zzz"] = false := by
  exact ⟨by decide, by decide⟩

/-- C2 amended: for a non-empty pattern list, an image is excluded iff a
pattern glob-matches a tag or the short ID, **or** a tag contains the word
`latest`, **or** a lower-cased tag contains one of `prod`, `production`,
`stable`, `release`; with an empty pattern list nothing is excluded (the
built-in heuristics are skipped as well). -/
theorem should_exclude_characterization (image : Image) (patterns : List String) :
    should_exclude_image image patterns =
      (!patterns.isEmpty &&
        (excludedBySpecPattern image patterns ||
          image.tags.any (fun tag => strContains tag "latest") ||
          image.tags.any (fun tag => production_patterns.any
            (fun prod_pattern => strContains (strToLower tag) prod_pattern)))) := by
  unfold should_exclude_image excludedBySpecPattern
  have hsplit :
      patterns.any (fun pattern =>
          image.tags.any (fun tag => fnmatch tag pattern) || fnmatch image.short_id pattern)
        = (image.tags.any (fun tag => patterns.any (fun pattern => fnmatch tag pattern)) ||
            patterns.any (fun pattern => fnmatch image.short_id pattern)) := by
    rw [list_any_or, list_any_swap]
  rw [hsplit]
  cases hE : patterns.isEmpty
  · simp only [hE, Bool.not_false, Bool.true_and, if_false, Bool.false_eq_true]
    cases h1 : image.tags.any (fun tag => patterns.any (fun pattern => fnmatch tag pattern)) <;>
      cases h2 : patterns.any (fun pattern => fnmatch image.short_id pattern) <;>
      cases h3 : image.tags.any (fun tag => strContains tag "latest") <;>
      cases h4 : image.tags.any (fun tag => production_patterns.any
        (fun prod_pattern => strContains (strToLower tag) prod_pattern)) <;>
      simp [h1, h2, h3, h4]
  · simp [hE]

/-- C3 counterexample: `imgPlain` is unreferenced and unexcluded, its Created
string parses to `t = 0`, and with `now = musPerDay` and a 1-day threshold it
sits exactly at the threshold age (`¬(now - t < threshold)`), so the claim
calls it eligible — yet the classifier's candidate list is empty. -/
theorem threshold_boundary_image_kept :
    parseCreated tsZero imgPlain.created = some 0 ∧
    ¬(musPerDay - 0 < 1 * musPerDay) ∧
    classifyImages tsZero musPerDay [imgPlain] [] 1 [] = [] := by
  refine ⟨by decide, by decide, by decide⟩

/-- C3 amended: an unreferenced, non-excluded image with a parsable Created
timestamp `t` is a deletion candidate exactly when `t < now - threshold`,
i.e. when it is strictly older than the threshold; an image exactly at the
threshold age is kept, not deleted. -/
theorem delete_iff_strictly_older
    (fromiso : String → Option Int) (now t : Int) (all_images : List Image)
    (containers : List Container) (days : Int) (patterns : List String)
    (image : Image) (hmem : image ∈ all_images)
    (hused : image.id ∉ usedImageIds containers)
    (hexcl : should_exclude_image image patterns = false)
    (hparse : parseCreated fromiso image.created = some t) :
    image ∈ classifyImages fromiso now all_images containers days patterns ↔
      t < now - days * musPerDay := by
  unfold classifyImages
  rw [List.mem_filter]
  simp [hmem, hused, hexcl, hparse]

/-- Witness for C3 amended: with a 0-day threshold, the strictly-older
`imgPlain` is a candidate. -/
theorem delete_iff_strictly_older_witness :
    imgPlain ∈ classifyImages tsZero musPerDay [imgPlain] [] 0 [] ↔
      (0 : Int) < musPerDay - 0 * musPerDay :=
  delete_iff_strictly_older tsZero musPerDay 0 [imgPlain] [] 0 [] imgPlain
    (by decide) (by decide) (by decide) (by decide)

/-- C7 counterexample: a runtime failure while listing produces exactly the
same value as a successful scan that found zero candidates — the empty
list — so the caller cannot distinguish the two, contradicting the claim
that a connectivity failure is surfaced distinctly. -/
theorem connectivity_error_indistinguishable :
    get_unused_images tsZero 0 (Except.error "unreachable") 3 [] =
      get_unused_images tsZero 0 (Except.ok ([], [])) 3 [] := rfl

/-- C7 amended: a ping failure at cycle start aborts `cleanup_images` with
no classification and no actions, but a runtime failure during listing is
caught inside `get_unused_images` and silently reported as an empty
candidate list; no error outcome is surfaced to the caller in either case. -/
theorem connectivity_failure_swallowed
    (fromiso : String → Option Int) (now : Int) (e : String)
    (listing : Except String (List Image × List Container))
    (days : Int) (patterns : List String) (dry_run backup_enabled : Bool)
    (removeSucceeds : String → Bool) :
    get_unused_images fromiso now (Except.error e) days patterns = [] ∧
    cleanup_images fromiso now (Except.error e) listing days patterns
      dry_run backup_enabled removeSucceeds = [] :=
  ⟨rfl, rfl⟩

/-- C5: in a live cycle with backups enabled and a non-empty candidate list,
the trace starts with the backup write, whose records are exactly one
`backupRecordOf` record (id, short id, tags, created, size, labels) per
candidate, and everything after it is a removal attempt — so the backup is
written before any removal call is issued. -/
theorem backup_written_before_removals
    (fromiso : String → Option Int) (now : Int)
    (listing : Except String (List Image × List Container))
    (days : Int) (patterns : List String) (removeSucceeds : String → Bool)
    (hne : get_unused_images fromiso now listing days patterns ≠ []) :
    ∃ rest,
      cleanup_images fromiso now (Except.ok ()) listing days patterns
          false true removeSucceeds =
        Event.backupWrite (backup_image_info
          (get_unused_images fromiso now listing days patterns)) :: rest ∧
      rest.all isRemoveEvent = true ∧
      ∀ image ∈ get_unused_images fromiso now listing days patterns,
        backupRecordOf image ∈
          backup_image_info (get_unused_images fromiso now listing days patterns) := by
  refine ⟨(get_unused_images fromiso now listing days patterns).flatMap
      (fun image => if removeSucceeds image.id then [Event.removeOk image.id]
        else [Event.removeFail image.id]), ?_, ?_, ?_⟩
  · have hempty : (get_unused_images fromiso now listing days patterns).isEmpty = false := by
      simp [List.isEmpty_iff, hne]
    unfold cleanup_images
    simp [hempty]
  · rw [List.all_eq_true]
    intro e he
    obtain ⟨img, _, hmem⟩ := List.mem_flatMap.mp he
    cases hrs : removeSucceeds img.id <;> simp [hrs] at hmem <;> subst hmem <;> rfl
  · intro image hmem
    exact List.mem_map_of_mem _ hmem

/-- Witness for C5: one old unreferenced image; the cycle writes its backup
record first and then removes it. -/
theorem backup_written_before_removals_witness :
    ∃ rest,
      cleanup_images tsZero musPerDay (Except.ok ())
          (Except.ok ([imgPlain], [])) 0 [] false true rmOk =
        Event.backupWrite (backup_image_info
          (get_unused_images tsZero musPerDay (Except.ok ([imgPlain], [])) 0 [])) :: rest ∧
      rest.all isRemoveEvent = true ∧
      ∀ image ∈ get_unused_images tsZero musPerDay (Except.ok ([imgPlain], [])) 0 [],
        backupRecordOf image ∈
          backup_image_info (get_unused_images tsZero musPerDay
            (Except.ok ([imgPlain], [])) 0 []) :=
  backup_written_before_removals tsZero musPerDay (Except.ok ([imgPlain], []))
    0 [] rmOk (by decide)

/-- C6 counterexample: three selected images where deleting the second
(`b`) fails: the interactive loop reports 1 success instead of the claimed
N−1 = 2, and the third image `c` is never attempted — the failure aborts
the remaining deletions instead of being isolated. -/
theorem interactive_batch_stops_at_first_failure :
    delete_selected_images getImgW rmFailB ["a", "b", "c"] =
        ⟨1, 10, ["a", "b"], true⟩ ∧
    (delete_selected_images getImgW rmFailB ["a", "b", "c"]).deleted_count ≠ 2 ∧
    "c" ∉ (delete_selected_images getImgW rmFailB ["a", "b", "c"]).attempted :=
  ⟨by decide, by decide, by decide⟩

/-- C6 amended: in the daemon batch each candidate gets its own removal
attempt — one image's failure never prevents the others' attempts, and the
per-item outcome is recorded in the trace.  In the interactive
delete-selected path, by contrast, the first failure executes `break`: the
items before the failing one are deleted and counted (the aggregate
excludes the failing item and everything after it), the failing item's
attempt is recorded, and the remaining items are not attempted. -/
theorem per_item_failure_semantics :
    (∀ (fromiso : String → Option Int) (now : Int)
        (listing : Except String (List Image × List Container))
        (days : Int) (patterns : List String) (backup_enabled : Bool)
        (removeSucceeds : String → Bool) (image : Image),
        image ∈ get_unused_images fromiso now listing days patterns →
        Event.removeOk image.id ∈ cleanup_images fromiso now (Except.ok ())
            listing days patterns false backup_enabled removeSucceeds ∨
          Event.removeFail image.id ∈ cleanup_images fromiso now (Except.ok ())
            listing days patterns false backup_enabled removeSucceeds) ∧
    (∀ (getImage : String → Option Image) (removeSucceeds : String → Bool)
        (pre : List String) (k : String) (post : List String),
        (∀ i ∈ pre, (getImage i).isSome ∧ removeSucceeds i = true) →
        (getImage k).isSome → removeSucceeds k = false →
        delete_selected_images getImage removeSucceeds (pre ++ k :: post) =
          ⟨pre.length,
            (pre.map (fun i => ((getImage i).map Image.size).getD 0)).sum,
            pre ++ [k], true⟩) := by
  constructor
  · intro fromiso now listing days patterns backup_enabled removeSucceeds image hmem
    have hempty : (get_unused_images fromiso now listing days patterns).isEmpty = false := by
      simp [List.isEmpty_iff, List.ne_nil_of_mem hmem]
    unfold cleanup_images
    simp only [hempty, Bool.false_eq_true, if_false]
    cases hrs : removeSucceeds image.id
    · right
      refine List.mem_append_right _ (List.mem_flatMap.mpr ⟨image, hmem, ?_⟩)
      simp [hrs]
    · left
      refine List.mem_append_right _ (List.mem_flatMap.mpr ⟨image, hmem, ?_⟩)
      simp [hrs]
  · intro getImage removeSucceeds pre k post hpre hk hrsk
    induction pre with
    | nil =>
      obtain ⟨img, himg⟩ := Option.isSome_iff_exists.mp hk
      simp [delete_selected_images, himg, hrsk]
    | cons i pre ih =>
      have hi := hpre i (List.mem_cons_self i pre)
      obtain ⟨img, himg⟩ := Option.isSome_iff_exists.mp hi.1
      have hrest := ih (fun j hj => hpre j (List.mem_cons_of_mem i hj))
      simp only [List.cons_append, delete_selected_images, himg, hi.2, if_true]
      simp [hrest, himg, Nat.add_comm]

/-- Witness for C6 amended: the daemon attempts `imgPlain`'s removal, and the
interactive run over `["a", "b", "c"]` with `b` failing stops after `b`. -/
theorem per_item_failure_semantics_witness :
    (Event.removeOk imgPlain.id ∈ cleanup_images tsZero musPerDay (Except.ok ())
        (Except.ok ([imgPlain], [])) 0 [] false true rmOk ∨
      Event.removeFail imgPlain.id ∈ cleanup_images tsZero musPerDay (Except.ok ())
        (Except.ok ([imgPlain], [])) 0 [] false true rmOk) ∧
    delete_selected_images getImgW rmFailB (["a"] ++ "b" :: ["c"]) =
      ⟨["a"].length,
        (["a"].map (fun i => ((getImgW i).map Image.size).getD 0)).sum,
        ["a"] ++ ["b"], true⟩ :=
  ⟨per_item_failure_semantics.1 tsZero musPerDay (Except.ok ([imgPlain], []))
      0 [] true rmOk imgPlain (by decide),
    per_item_failure_semantics.2 getImgW rmFailB ["a"] "b" ["c"]
      (by decide) (by decide) (by decide)⟩

/-- C9 counterexample: `gone` was selected but no longer exists at execute
time — `client.images.get` raises `ImageNotFound`, an `APIError`, so the
loop breaks: the surviving selection `b` is never attempted and the run
ends in the error status, contradicting the claimed successful no-op. -/
theorem missing_image_treated_as_failure :
    delete_selected_images getImgGone rmOk ["gone", "b"] = ⟨0, 0, ["gone"], true⟩ ∧
    "b" ∉ (delete_selected_images getImgGone rmOk ["gone", "b"]).attempted ∧
    (delete_selected_images getImgGone rmOk ["gone", "b"]).aborted = true :=
  ⟨by decide, by decide, by decide⟩

/-- C9 amended: a selected image that no longer exists at execute time makes
`client.images.get` raise `ImageNotFound` (a subclass of `APIError`), which
the handler turns into an error status and a `break`: nothing is counted as
deleted and the remaining selected images are not attempted. -/
theorem missing_image_aborts_loop
    (getImage : String → Option Image) (removeSucceeds : String → Bool)
    (image_id : String) (rest : List String)
    (h : getImage image_id = none) :
    delete_selected_images getImage removeSucceeds (image_id :: rest) =
      ⟨0, 0, [image_id], true⟩ := by
  simp [delete_selected_images, h]

/-- Witness for C9 amended: the concrete two-image selection starting with
the vanished `gone`. -/
theorem missing_image_aborts_loop_witness :
    delete_selected_images getImgGone rmOk ["gone", "b"] = ⟨0, 0, ["gone"], true⟩ :=
  missing_image_aborts_loop getImgGone rmOk "gone" ["b"] (by decide)

/-! ## Configuration lemmas -/

theorem lookupConfig_setConfig_self (c : Config) (k : String) (v : CVal) :
    lookupConfig (setConfig c k v) k = some v := by
  induction c with
  | nil => simp [setConfig, lookupConfig]
  | cons kv rest ih =>
    obtain ⟨k', v'⟩ := kv
    by_cases h : k' = k
    · subst h
      simp [setConfig, lookupConfig]
    · simp [setConfig, lookupConfig, h, ih]

theorem lookupConfig_setConfig_ne {c : Config} {k k' : String} {v : CVal}
    (h : k' ≠ k) :
    lookupConfig (setConfig c k' v) k = lookupConfig c k := by
  induction c with
  | nil => simp [setConfig, lookupConfig, h]
  | cons kv rest ih =>
    obtain ⟨k0, v0⟩ := kv
    by_cases h0 : k0 = k'
    · subst h0
      simp [setConfig, lookupConfig, h]
    · by_cases hk : k0 = k
      · subst hk
        simp [setConfig, lookupConfig, h0]
      · simp [setConfig, lookupConfig, h0, hk, ih]

theorem lookupConfig_mergeStep_preserve {acc : Config} {k : String} {v : CVal}
    (kv : String × CVal) (hforced : k ∉ forcedKeys)
    (hv : lookupConfig acc k = some v) :
    lookupConfig (mergeStep acc kv) k = some v := by
  unfold mergeStep
  by_cases hk : kv.1 = k
  · rw [hk]
    simp [hv, hforced]
  · by_cases hn : (lookupConfig acc kv.1).isNone <;>
      by_cases hf : kv.1 ∈ forcedKeys <;>
      simp [hn, hf, lookupConfig_setConfig_ne hk, hv]

theorem lookupConfig_mergeStep_ne {acc : Config} {k : String}
    (kv : String × CVal) (hk : kv.1 ≠ k) :
    lookupConfig (mergeStep acc kv) k = lookupConfig acc k := by
  unfold mergeStep
  by_cases hn : (lookupConfig acc kv.1).isNone <;>
    by_cases hf : kv.1 ∈ forcedKeys <;>
    simp [hn, hf, lookupConfig_setConfig_ne hk]

theorem lookupConfig_foldl_preserve (l : List (String × CVal)) {acc : Config}
    {k : String} {v : CVal} (hforced : k ∉ forcedKeys)
    (hv : lookupConfig acc k = some v) :
    lookupConfig (l.foldl mergeStep acc) k = some v := by
  induction l generalizing acc with
  | nil => exact hv
  | cons kv t ih => exact ih (lookupConfig_mergeStep_preserve kv hforced hv)

theorem lookupConfig_foldl_ne (l : List (String × CVal)) {acc : Config}
    {k : String} (h : ∀ kv ∈ l, kv.1 ≠ k) :
    lookupConfig (l.foldl mergeStep acc) k = lookupConfig acc k := by
  induction l generalizing acc with
  | nil => rfl
  | cons kv t ih =>
    rw [List.foldl_cons, ih (fun kv' h' => h kv' (List.mem_cons_of_mem kv h')),
      lookupConfig_mergeStep_ne kv (h kv (List.mem_cons_self kv t))]

theorem lookupConfig_mergeStep_forced {acc : Config} (kv : String × CVal)
    (hf : kv.1 ∈ forcedKeys) :
    lookupConfig (mergeStep acc kv) kv.1 = some kv.2 := by
  unfold mergeStep
  by_cases hn : (lookupConfig acc kv.1).isNone <;>
    simp [hn, hf, lookupConfig_setConfig_self]

/-- C8 counterexample: saving `image_age_threshold_days = 7` through
`set_config_value` and then loading returns the default `3`, not `7` —
`load_config` force-overwrites this key on every load, so the round trip
fails for exactly the key the claim names. -/
theorem forced_threshold_not_round_tripped :
    lookupConfig (load_config (some (set_config_value (some DEFAULT_CONFIG)
        "image_age_threshold_days" (CVal.int 7)))) "image_age_threshold_days" =
      some (CVal.int 3) ∧
    (some (CVal.int 3) : Option CVal) ≠ some (CVal.int 7) := by
  constructor
  · show lookupConfig (List.foldl mergeStep
      (set_config_value (some DEFAULT_CONFIG) "image_age_threshold_days" (CVal.int 7))
      DEFAULT_CONFIG) "image_age_threshold_days" = some (CVal.int 3)
    rw [show DEFAULT_CONFIG =
      [("daemon_sleep_interval_seconds", CVal.int 86400),
       ("image_age_threshold_days", CVal.int 3)] ++
      [("dry_run_mode", CVal.bool false),
       ("excluded_image_patterns", CVal.strList []),
       ("log_level", CVal.str "INFO"),
       ("log_file", CVal.str "/var/log/docker-janitor.log"),
       ("backup_enabled", CVal.bool true),
       ("backup_file", CVal.str "/var/lib/docker-janitor/backup.json")] from rfl,
      List.foldl_append]
    rw [lookupConfig_foldl_ne _ (by decide)]
    exact lookupConfig_mergeStep_forced ("image_age_threshold_days", CVal.int 3)
      (by decide)
  · decide

/-- C8 amended: `set_config_value` followed by `load_config` round-trips for
every configuration key except `image_age_threshold_days` and `log_level`,
which `load_config` resets to their defaults (`3` and `"INFO"`) on every
load regardless of what was saved. -/
theorem config_round_trip_except_forced :
    (∀ (file : Option Config) (key : String) (value : CVal),
        forcedKeys.contains key = false →
        lookupConfig (load_config (some (set_config_value file key value))) key =
          some value) ∧
    (∀ s : Config,
        lookupConfig (load_config (some s)) "image_age_threshold_days" =
            some (CVal.int 3) ∧
          lookupConfig (load_config (some s)) "log_level" = some (CVal.str "INFO")) := by
  constructor
  · intro file key value hforced
    have hforced' : key ∉ forcedKeys := fun hmem => by
      simp [List.contains, List.elem_iff, hmem] at hforced
    show lookupConfig (List.foldl mergeStep
      (setConfig (load_config file) key value) DEFAULT_CONFIG) key = some value
    exact lookupConfig_foldl_preserve DEFAULT_CONFIG hforced'
      (lookupConfig_setConfig_self (load_config file) key value)
  · intro s
    constructor
    · show lookupConfig (List.foldl mergeStep s DEFAULT_CONFIG)
        "image_age_threshold_days" = some (CVal.int 3)
      rw [show DEFAULT_CONFIG =
        [("daemon_sleep_interval_seconds", CVal.int 86400),
         ("image_age_threshold_days", CVal.int 3)] ++
        [("dry_run_mode", CVal.bool false),
         ("excluded_image_patterns", CVal.strList []),
         ("log_level", CVal.str "INFO"),
         ("log_file", CVal.str "/var/log/docker-janitor.log"),
         ("backup_enabled", CVal.bool true),
         ("backup_file", CVal.str "/var/lib/docker-janitor/backup.json")] from rfl,
        List.foldl_append]
      rw [lookupConfig_foldl_ne _ (by decide)]
      exact lookupConfig_mergeStep_forced ("image_age_threshold_days", CVal.int 3)
        (by decide)
    · show lookupConfig (List.foldl mergeStep s DEFAULT_CONFIG)
        "log_level" = some (CVal.str "INFO")
      rw [show DEFAULT_CONFIG =
        [("daemon_sleep_interval_seconds", CVal.int 86400),
         ("image_age_threshold_days", CVal.int 3),
         ("dry_run_mode", CVal.bool false),
         ("excluded_image_patterns", CVal.strList []),
         ("log_level", CVal.str "INFO")] ++
        [("log_file", CVal.str "/var/log/docker-janitor.log"),
         ("backup_enabled", CVal.bool true),
         ("backup_file", CVal.str "/var/lib/docker-janitor/backup.json")] from rfl,
        List.foldl_append]
      rw [lookupConfig_foldl_ne _ (by decide)]
      exact lookupConfig_mergeStep_forced ("log_level", CVal.str "INFO") (by decide)

/-- Witness for C8 amended: `dry_run_mode` round-trips through save/load,
while `image_age_threshold_days` comes back as its default. -/
theorem config_round_trip_except_forced_witness :
    lookupConfig (load_config (some (set_config_value (some DEFAULT_CONFIG)
        "dry_run_mode" (CVal.bool true)))) "dry_run_mode" = some (CVal.bool true) ∧
    lookupConfig (load_config (some DEFAULT_CONFIG)) "image_age_threshold_days" =
      some (CVal.int 3) :=
  ⟨config_round_trip_except_forced.1 (some DEFAULT_CONFIG) "dry_run_mode"
      (CVal.bool true) (by decide),
    (config_round_trip_except_forced.2 DEFAULT_CONFIG).1⟩

end DockerJanitor
